import Mathlib

/-!
Verification of the encoder backbone defined in model/net_desc.py of the
hover_net repository.  Tensors are modelled by their four extents together
with a total indexing function into rational entries; layers carrying learned
weights (convolutions, batch normalisation) are modelled structurally as
`Layer` values when a claim concerns the constructed architecture, and as
abstract tensor transformers when a claim concerns the forward data flow.
-/

/-- Entries of tensors: exact rationals stand in for the float values. -/
abbrev Pixel := ℚ

/-- A tensor of rank 4 with axes (batch, channel, height, width), as used
throughout net_desc.py.  `data` is total; entries outside the extents are
irrelevant to every statement below. -/
structure Tensor4 where
  batch : Nat
  chan : Nat
  height : Nat
  width : Nat
  data : Nat → Nat → Nat → Nat → Pixel

/-- Element-wise tensor addition (torch `+` on equally shaped tensors). -/
instance : Add Tensor4 :=
  ⟨fun x y => ⟨x.batch, x.chan, x.height, x.width,
    fun b c h w => x.data b c h w + y.data b c h w⟩⟩

/-- Division of every entry by a scalar (`imgs = imgs / 255.0` in
HoVerNet.forward, net_desc.py line 296). -/
def Tensor4.divScalar (x : Tensor4) (v : Pixel) : Tensor4 :=
  ⟨x.batch, x.chan, x.height, x.width, fun b c h w => x.data b c h w / v⟩

/-- torch.cat along the channel axis (dim=1), as used in DenseBlock.forward
(net_desc.py line 109). -/
def Tensor4.cat (x y : Tensor4) : Tensor4 :=
  ⟨x.batch, x.chan + y.chan, x.height, x.width,
   fun b c h w => if c < x.chan then x.data b c h w else y.data b (c - x.chan) h w⟩

/-- Structural description of one constructed torch layer.  `groups` records
the `groups=` argument of nn.Conv2d (1 everywhere except the dense unit's
second convolution, which receives `groups=split`). -/
inductive Layer where
  | conv2d (in_ch out_ch ksize stride groups : Nat) (bias : Bool)
  | batchNorm2d (ch : Nat)
  | relu
  | samePadLayer (ksize stride : Nat)

/-- Total padding computed by TFSamepaddingLayer.forward (net_desc.py lines
52-55).  Over ℕ the truncated subtraction `ksize - stride` equals the source's
`max(self.ksize - self.stride, 0)`, and likewise for the second branch. -/
def TFSamepaddingLayer.pad (ksize stride d : Nat) : Nat :=
  if d % stride = 0 then ksize - stride else ksize - d % stride

/-- The (pad_val_start, pad_val_end) pair computed by
TFSamepaddingLayer.forward (net_desc.py lines 57-63); the same pair is used
for the height axis and the width axis of the F.pad call. -/
def TFSamepaddingLayer.padding (ksize stride d : Nat) : Nat × Nat :=
  if TFSamepaddingLayer.pad ksize stride d % 2 = 0 then
    (TFSamepaddingLayer.pad ksize stride d / 2, TFSamepaddingLayer.pad ksize stride d / 2)
  else
    (TFSamepaddingLayer.pad ksize stride d / 2,
     TFSamepaddingLayer.pad ksize stride d - TFSamepaddingLayer.pad ksize stride d / 2)

/-- TFSamepaddingLayer.forward (net_desc.py lines 51-65): the padding amounts
are derived from the height axis `x.shape[2]` and applied by
`F.pad(x, (start, end, start, end), "constant", 0)`, i.e. the same
(before, after) pair on the width axis and on the height axis, filling with
zero. -/
def TFSamepaddingLayer.forward (ksize stride : Nat) (x : Tensor4) : Tensor4 :=
  let pr := TFSamepaddingLayer.padding ksize stride x.height
  ⟨x.batch, x.chan, pr.1 + x.height + pr.2, pr.1 + x.width + pr.2,
   fun b c h w =>
     if pr.1 ≤ h ∧ h < pr.1 + x.height ∧ pr.1 ≤ w ∧ w < pr.1 + x.width then
       x.data b c (h - pr.1) (w - pr.1)
     else 0⟩

/-- The spec's total-padding formula (§4.1), written over ℤ so that the
`max(k - s, 0)` has its stated integer meaning. -/
def specTotalPad (k s d : Nat) : Int :=
  if d % s = 0 then max ((k : Int) - (s : Int)) 0
  else max ((k : Int) - ((d % s : Nat) : Int)) 0

/-- The spec's description of applying a (before, after) pair: zero fill,
identical on the height and width axes. -/
def specPadBothAxes (pr : Nat × Nat) (x : Tensor4) : Tensor4 :=
  ⟨x.batch, x.chan, pr.1 + x.height + pr.2, pr.1 + x.width + pr.2,
   fun b c h w =>
     if pr.1 ≤ h ∧ h < pr.1 + x.height ∧ pr.1 ≤ w ∧ w < pr.1 + x.width then
       x.data b c (h - pr.1) (w - pr.1)
     else 0⟩

/-- Configuration faults raised by the constructors; the source raises an
AssertionError carrying the message 'Unbalance Unit Info'. -/
inductive ConfigFault where
  | unbalanceUnitInfo

/-- The layer list of residual unit `idx`, from ResidualBlock.__init__
(net_desc.py lines 128-152): preact bn+relu, 1x1 conv1, bn+relu, SamePadder
plus conv2 (stride = block stride only for unit 0), bn+relu, conv3; unit 0
drops the two preact layers (`unit_layer[2:]`). -/
def ResidualBlock.unitLayers (unit_in_ch : Nat) (unit_ksize unit_ch : List Nat)
    (stride : Nat) (idx : Nat) : List Layer :=
  let s := if idx = 0 then stride else 1
  let unit_layer : List Layer := [
    Layer.batchNorm2d unit_in_ch, Layer.relu,
    Layer.conv2d unit_in_ch (unit_ch.getD 0 0) (unit_ksize.getD 0 0) 1 1 false,
    Layer.batchNorm2d (unit_ch.getD 0 0), Layer.relu,
    Layer.samePadLayer (unit_ksize.getD 1 0) s,
    Layer.conv2d (unit_ch.getD 0 0) (unit_ch.getD 1 0) (unit_ksize.getD 1 0) s 1 false,
    Layer.batchNorm2d (unit_ch.getD 1 0), Layer.relu,
    Layer.conv2d (unit_ch.getD 1 0) (unit_ch.getD 2 0) (unit_ksize.getD 2 0) 1 1 false ]
  if idx ≠ 0 then unit_layer else unit_layer.drop 2

/-- The whole unit list of a ResidualBlock: `unit_in_ch` starts as `in_ch`
and is `unit_ch[-1]` for every later unit (net_desc.py line 153). -/
def ResidualBlock.unitList (in_ch : Nat) (unit_ksize unit_ch : List Nat)
    (unit_count stride : Nat) : List (List Layer) :=
  (List.range unit_count).map fun idx =>
    ResidualBlock.unitLayers (if idx = 0 then in_ch else unit_ch.getLastD 0)
      unit_ksize unit_ch stride idx

/-- The shortcut of ResidualBlock.__init__ (net_desc.py lines 155-159):
a 1x1 projection convolution without bias at the block stride when
`in_ch != unit_ch[-1] or stride != 1`, and absent (identity) otherwise. -/
def ResidualBlock.shortcut (in_ch : Nat) (unit_ch : List Nat) (stride : Nat) :
    Option Layer :=
  if in_ch ≠ unit_ch.getLastD 0 ∨ stride ≠ 1 then
    some (Layer.conv2d in_ch (unit_ch.getLastD 0) 1 stride 1 false)
  else none

/-- The closing bn+relu of a ResidualBlock (net_desc.py lines 161-164);
its channel count is `unit_in_ch` after the construction loop. -/
def ResidualBlock.blk_bna (in_ch : Nat) (unit_ch : List Nat) (unit_count : Nat) :
    List Layer :=
  [Layer.batchNorm2d (if unit_count = 0 then in_ch else unit_ch.getLastD 0), Layer.relu]

/-- ResidualBlock.__init__ (net_desc.py lines 117-164) as a fallible
constructor: `assert len(unit_ksize) == len(unit_ch), 'Unbalance Unit Info'`
fails construction before anything else is built. -/
def ResidualBlock.init (in_ch : Nat) (unit_ksize unit_ch : List Nat)
    (unit_count stride : Nat) :
    Except ConfigFault (List (List Layer) × Option Layer × List Layer) :=
  if unit_ksize.length = unit_ch.length then
    Except.ok
      (ResidualBlock.unitList in_ch unit_ksize unit_ch unit_count stride,
       ResidualBlock.shortcut in_ch unit_ch stride,
       ResidualBlock.blk_bna in_ch unit_ch unit_count)
  else Except.error ConfigFault.unbalanceUnitInfo

/-- The loop of ResidualBlock.forward (net_desc.py lines 185-189):
`new_feat = unit(prev_feat); prev_feat = new_feat + shortcut;
shortcut = prev_feat`. -/
def ResidualBlock.runUnits : List (Tensor4 → Tensor4) → Tensor4 → Tensor4 → Tensor4
  | [], prev_feat, _ => prev_feat
  | u :: rest, prev_feat, shortcut =>
      ResidualBlock.runUnits rest (u prev_feat + shortcut) (u prev_feat + shortcut)

/-- ResidualBlock.forward (net_desc.py lines 169-191).  The units and the
closing bn+relu carry learned weights and are taken as abstract tensor
transformers; `shortcut` is `none` when no projection layer was constructed.
The `freeze` argument is accepted, as in the source signature, and never
read on the inference path. -/
def ResidualBlock.forward (units : List (Tensor4 → Tensor4))
    (shortcut : Option (Tensor4 → Tensor4)) (blk_bna : Tensor4 → Tensor4)
    (prev_feat : Tensor4) (freeze : Bool) : Tensor4 :=
  let sc : Tensor4 :=
    match shortcut with
    | none => prev_feat
    | some f => f prev_feat
  blk_bna (ResidualBlock.runUnits units prev_feat sc)

/-- The shortcut path as a function: identity when no projection layer
exists, the projection otherwise. -/
def ResidualBlock.shortcutFun : Option (Tensor4 → Tensor4) → Tensor4 → Tensor4
  | none => fun t => t
  | some f => f

/-- One step of the recurrence stated in spec §4.2: the state is
(current, shortcut); `new = unit(current)`, `current = new + shortcut`, and
the running sum becomes the next unit's shortcut. -/
def specResidualStep (st : Tensor4 × Tensor4) (u : Tensor4 → Tensor4) :
    Tensor4 × Tensor4 :=
  (u st.1 + st.2, u st.1 + st.2)

/-- The forward algorithm as worded by spec §4.2: start from
(input, shortcut_path(input)), run the telescoping recurrence over the units
in order, then apply the final normalise-and-activate. -/
def specResidualForward (units : List (Tensor4 → Tensor4))
    (shortcut_path : Tensor4 → Tensor4) (blk_bna : Tensor4 → Tensor4)
    (input : Tensor4) : Tensor4 :=
  blk_bna (units.foldl specResidualStep (input, shortcut_path input)).1

/-- The layer list of one dense unit, from DenseBlock.__init__ (net_desc.py
lines 86-97): preact bn+relu, valid 1x1 conv1, bn+relu, valid grouped conv2. -/
def DenseBlock.unitLayers (unit_in_ch : Nat) (unit_ksize unit_ch : List Nat)
    (split : Nat) : List Layer :=
  [Layer.batchNorm2d unit_in_ch, Layer.relu,
   Layer.conv2d unit_in_ch (unit_ch.getD 0 0) (unit_ksize.getD 0 0) 1 1 false,
   Layer.batchNorm2d (unit_ch.getD 0 0), Layer.relu,
   Layer.conv2d (unit_ch.getD 0 0) (unit_ch.getD 1 0) (unit_ksize.getD 1 0) 1 split false]

/-- The running input channel count of DenseBlock.__init__: it starts at
`in_ch` and grows by `unit_ch[1]` after every unit (net_desc.py line 98). -/
def DenseBlock.unitInCh (in_ch : Nat) (unit_ch : List Nat) : Nat → Nat
  | 0 => in_ch
  | n + 1 => DenseBlock.unitInCh in_ch unit_ch n + unit_ch.getD 1 0

/-- The whole unit list of a DenseBlock (net_desc.py lines 84-98). -/
def DenseBlock.unitList (in_ch : Nat) (unit_ksize unit_ch : List Nat)
    (unit_count split : Nat) : List (List Layer) :=
  (List.range unit_count).map fun idx =>
    DenseBlock.unitLayers (DenseBlock.unitInCh in_ch unit_ch idx) unit_ksize unit_ch split

/-- The closing bn+relu of a DenseBlock (net_desc.py lines 100-103); its
channel count is the running input channel count after all units. -/
def DenseBlock.blk_bna (in_ch : Nat) (unit_ch : List Nat) (unit_count : Nat) :
    List Layer :=
  [Layer.batchNorm2d (DenseBlock.unitInCh in_ch unit_ch unit_count), Layer.relu]

/-- DenseBlock.__init__ (net_desc.py lines 74-103) as a fallible constructor:
the same 'Unbalance Unit Info' assertion guards it. -/
def DenseBlock.init (in_ch : Nat) (unit_ksize unit_ch : List Nat)
    (unit_count split : Nat) :
    Except ConfigFault (List (List Layer) × List Layer) :=
  if unit_ksize.length = unit_ch.length then
    Except.ok (DenseBlock.unitList in_ch unit_ksize unit_ch unit_count split,
               DenseBlock.blk_bna in_ch unit_ch unit_count)
  else Except.error ConfigFault.unbalanceUnitInfo

/-- Modelled from the spec: `crop_to_shape` is imported from model/utils.py,
which is not under src; spec §4.3 says the running feature map is
center-cropped to the new unit's (smaller) spatial size with a symmetric trim
on height and width. -/
def crop_to_shape (x target : Tensor4) : Tensor4 :=
  ⟨x.batch, x.chan, target.height, target.width,
   fun b c h w =>
     x.data b c (h + (x.height - target.height) / 2) (w + (x.width - target.width) / 2)⟩

/-- One iteration of the loop of DenseBlock.forward (net_desc.py lines
106-109): `new_feat = unit(prev_feat); prev_feat = crop_to_shape(prev_feat,
new_feat); prev_feat = torch.cat([prev_feat, new_feat], dim=1)`. -/
def DenseBlock.step (prev_feat : Tensor4) (u : Tensor4 → Tensor4) : Tensor4 :=
  Tensor4.cat (crop_to_shape prev_feat (u prev_feat)) (u prev_feat)

/-- DenseBlock.forward (net_desc.py lines 105-112): run every unit in order
through `DenseBlock.step`, then apply the closing bn+relu. -/
def DenseBlock.forward (units : List (Tensor4 → Tensor4))
    (blk_bna : Tensor4 → Tensor4) (prev_feat : Tensor4) : Tensor4 :=
  blk_bna (units.foldl DenseBlock.step prev_feat)

/-- The forward algorithm as worded by spec §4.3: per unit, crop the running
map to the new output's spatial size, concatenate channel-wise, and close
with the final normalise-and-activate. -/
def specDenseForward : List (Tensor4 → Tensor4) → (Tensor4 → Tensor4) → Tensor4 → Tensor4
  | [], blk_bna, running => blk_bna running
  | u :: rest, blk_bna, running =>
      specDenseForward rest blk_bna
        (Tensor4.cat (crop_to_shape running (u running)) (u running))

/-- The constant 2x2 all-ones matrix registered by UpSample2x.__init__
(net_desc.py lines 203-204); it is a buffer, never a learned parameter. -/
def UpSample2x.unpool_mat : Nat → Nat → Pixel := fun _ _ => 1

/-- `x.unsqueeze(-1)`: a trailing contraction axis of extent 1. -/
def UpSample2x.xu (x : Tensor4) : Nat → Nat → Nat → Nat → Nat → Pixel :=
  fun b c h w _ => x.data b c h w

/-- `self.unpool_mat.unsqueeze(0)`: a leading contraction axis of extent 1. -/
def UpSample2x.mat : Nat → Nat → Nat → Pixel :=
  fun _ sh sw => UpSample2x.unpool_mat sh sw

/-- `torch.tensordot(x, mat, dims=1)` (net_desc.py line 214): contract the
trailing axis of the unsqueezed input (extent 1) against the leading axis of
the unsqueezed ones matrix, giving axes (b, c, h, w, sh, sw). -/
def UpSample2x.ret (x : Tensor4) (b c h w sh sw : Nat) : Pixel :=
  (Finset.range 1).sum fun t => UpSample2x.xu x b c h w t * UpSample2x.mat t sh sw

/-- UpSample2x.forward (net_desc.py lines 207-217): tensordot against the
ones matrix, permute (0,1,2,4,3,5), and reshape to (B, C, 2H, 2W).  The
row-major reshape sends output position p to source pair (p / 2, p % 2). -/
def UpSample2x.forward (x : Tensor4) : Tensor4 :=
  ⟨x.batch, x.chan, x.height * 2, x.width * 2,
   fun b c p q => UpSample2x.ret x b c (p / 2) (q / 2) (p % 2) (q % 2)⟩

/-- Constructor arguments of one ResidualBlock stage of the encoder. -/
structure ResidualBlockSpec where
  in_ch : Nat
  unit_ksize : List Nat
  unit_ch : List Nat
  unit_count : Nat
  stride : Nat

/-- Stage d0 of HoVerNet.__init__ (net_desc.py line 235). -/
def HoVerNet.d0 : ResidualBlockSpec := ⟨64, [1, 3, 1], [64, 64, 256], 3, 1⟩

/-- Stage d1 of HoVerNet.__init__ (net_desc.py line 236). -/
def HoVerNet.d1 : ResidualBlockSpec := ⟨256, [1, 3, 1], [128, 128, 512], 4, 2⟩

/-- Stage d2 of HoVerNet.__init__ (net_desc.py line 237). -/
def HoVerNet.d2 : ResidualBlockSpec := ⟨512, [1, 3, 1], [256, 256, 1024], 6, 2⟩

/-- Stage d3 of HoVerNet.__init__ (net_desc.py line 238). -/
def HoVerNet.d3 : ResidualBlockSpec := ⟨1024, [1, 3, 1], [512, 512, 2048], 3, 2⟩

/-- The stem conv0 of HoVerNet.__init__ (net_desc.py lines 228-233): a 7x7
valid convolution without bias to 64 channels, then bn and relu. -/
def HoVerNet.conv0 (input_ch : Nat) : List Layer :=
  [Layer.conv2d input_ch 64 7 1 1 false, Layer.batchNorm2d 64, Layer.relu]

/-- The bottleneck conv_bot of HoVerNet.__init__ (net_desc.py lines 240-241):
a 1x1 convolution without bias from 2048 to 1024 channels. -/
def HoVerNet.conv_bot : Layer := Layer.conv2d 2048 1024 1 1 1 false

/-- The weight-bearing submodules of the encoder, abstracted as tensor
transformers for the data-flow statement. -/
structure HoVerNet.Modules where
  conv0 : Tensor4 → Tensor4
  d0 : Tensor4 → Tensor4
  d1 : Tensor4 → Tensor4
  d2 : Tensor4 → Tensor4
  d3 : Tensor4 → Tensor4
  conv_bot : Tensor4 → Tensor4

/-- HoVerNet.forward, inference path (net_desc.py lines 294-335): divide by
255, stem, the four residual stages, the bottleneck convolution, and return
the result. -/
def HoVerNet.forward (m : HoVerNet.Modules) (imgs : Tensor4) : Tensor4 :=
  let imgs2 := Tensor4.divScalar imgs 255
  let a0 := m.conv0 imgs2
  let b0 := m.d0 a0
  let b1 := m.d1 b0
  let b2 := m.d2 b1
  let b3 := m.d3 b2
  m.conv_bot b3

/-- A concrete 1x1x2x2 tensor used to instantiate hypotheses. -/
def upSampleProbe : Tensor4 :=
  ⟨1, 1, 2, 2, fun _ _ h w => (h : Pixel) + 2 * (w : Pixel)⟩

/-- Helper: the padding pair is always the floor split of the total pad. -/
theorem TFSamepaddingLayer.padding_eq_split (k s d : Nat) :
    TFSamepaddingLayer.padding k s d
      = (TFSamepaddingLayer.pad k s d / 2,
         TFSamepaddingLayer.pad k s d - TFSamepaddingLayer.pad k s d / 2) := by
  unfold TFSamepaddingLayer.padding
  by_cases h : TFSamepaddingLayer.pad k s d % 2 = 0
  · rw [if_pos h]
    simp only [Prod.mk.injEq]
    exact ⟨trivial, by omega⟩
  · rw [if_neg h]

/-- Helper: the truncated-subtraction total pad of the source equals the
spec's integer formula with max. -/
theorem TFSamepaddingLayer.pad_eq_spec (k s d : Nat) :
    ((TFSamepaddingLayer.pad k s d : Nat) : Int) = specTotalPad k s d := by
  unfold TFSamepaddingLayer.pad specTotalPad
  generalize d % s = m
  by_cases h : m = 0
  · rw [if_pos h, if_pos h]
    rcases Nat.le_total s k with h1 | h1
    · rw [max_eq_left (by omega)]
      omega
    · rw [max_eq_right (by omega)]
      omega
  · rw [if_neg h, if_neg h]
    rcases Nat.le_total m k with h1 | h1
    · rw [max_eq_left (by omega)]
      omega
    · rw [max_eq_right (by omega)]
      omega

/-- Claim C1: for non-negative kernel size k, positive stride s and spatial
extent d taken from the height axis, the SamePadder computes total padding
p = max(k - s, 0) when d mod s = 0 and p = max(k - d mod s, 0) otherwise,
splits it into before = after = p / 2 when p is even and
before = floor(p / 2), after = p - before when p is odd (so before + after = p
and before is at most after), and pads both the height and the width axes
with this same pair and zero fill. -/
theorem tfSamePadding_matches_spec (k s d : Nat) (hs : 0 < s) :
    (((TFSamepaddingLayer.padding k s d).1 : Int)
        + ((TFSamepaddingLayer.padding k s d).2 : Int) = specTotalPad k s d) ∧
    (TFSamepaddingLayer.padding k s d).1 ≤ (TFSamepaddingLayer.padding k s d).2 ∧
    (TFSamepaddingLayer.pad k s d % 2 = 0 →
      TFSamepaddingLayer.padding k s d
        = (TFSamepaddingLayer.pad k s d / 2, TFSamepaddingLayer.pad k s d / 2)) ∧
    (TFSamepaddingLayer.pad k s d % 2 = 1 →
      TFSamepaddingLayer.padding k s d
        = (TFSamepaddingLayer.pad k s d / 2,
           TFSamepaddingLayer.pad k s d - TFSamepaddingLayer.pad k s d / 2)) ∧
    (∀ x : Tensor4, x.height = d →
      TFSamepaddingLayer.forward k s x
        = specPadBothAxes (TFSamepaddingLayer.padding k s d) x) := by
  refine ⟨?_, ?_, ?_, ?_, ?_⟩
  · rw [TFSamepaddingLayer.padding_eq_split, ← TFSamepaddingLayer.pad_eq_spec]
    dsimp only
    omega
  · rw [TFSamepaddingLayer.padding_eq_split]
    dsimp only
    omega
  · intro h
    rw [TFSamepaddingLayer.padding_eq_split]
    simp only [Prod.mk.injEq]
    exact ⟨trivial, by omega⟩
  · intro h
    exact TFSamepaddingLayer.padding_eq_split k s d
  · intro x hx
    subst hx
    rfl

/-- Witness for C1 at kernel 3, stride 2, extent 5. -/
theorem tfSamePadding_matches_spec_witness :
    ((TFSamepaddingLayer.padding 3 2 5).1 : Int)
        + ((TFSamepaddingLayer.padding 3 2 5).2 : Int) = specTotalPad 3 2 5 :=
  (tfSamePadding_matches_spec 3 2 5 (by decide)).1

/-- Helper: the source's unit loop equals the fold of the spec recurrence. -/
theorem ResidualBlock.runUnits_eq_foldl (units : List (Tensor4 → Tensor4)) :
    ∀ prev sc : Tensor4,
      ResidualBlock.runUnits units prev sc
        = (units.foldl specResidualStep (prev, sc)).1 := by
  induction units with
  | nil => intro prev sc; rfl
  | cons u rest ih =>
      intro prev sc
      exact ih (u prev + sc) (u prev + sc)

/-- Claim C2: a ResidualBlock's forward pass is the telescoping accumulation:
the shortcut is first the shortcut path applied to the input; each unit in
order computes new = unit(current), current = new + shortcut, and the running
sum becomes the shortcut for the next unit; the final normalise-and-activate
of the accumulated tensor is the block's output. -/
theorem residualBlock_forward_telescoping (units : List (Tensor4 → Tensor4))
    (shortcut : Option (Tensor4 → Tensor4)) (bna : Tensor4 → Tensor4)
    (x : Tensor4) (freeze : Bool) :
    ResidualBlock.forward units shortcut bna x freeze
      = specResidualForward units (ResidualBlock.shortcutFun shortcut) bna x := by
  cases shortcut with
  | none => exact congrArg bna (ResidualBlock.runUnits_eq_foldl units x x)
  | some f => exact congrArg bna (ResidualBlock.runUnits_eq_foldl units x (f x))

/-- Claim C3: the shortcut is absent (identity) exactly when the input
channel count equals the last unit channel and the stride is 1; otherwise it
is a 1x1 projection convolution without bias at the block stride whose output
channel count is the last entry of the unit channel list. -/
theorem residualBlock_shortcut_projection (in_ch c0 c1 c2 stride : Nat) :
    (ResidualBlock.shortcut in_ch [c0, c1, c2] stride = none
        ↔ in_ch = c2 ∧ stride = 1) ∧
    (in_ch ≠ c2 ∨ stride ≠ 1 →
      ResidualBlock.shortcut in_ch [c0, c1, c2] stride
        = some (Layer.conv2d in_ch c2 1 stride 1 false)) := by
  by_cases h1 : in_ch = c2
  · by_cases h2 : stride = 1
    · simp [ResidualBlock.shortcut, List.getLastD, h1, h2]
    · simp [ResidualBlock.shortcut, List.getLastD, h1, h2]
  · simp [ResidualBlock.shortcut, List.getLastD, h1]

/-- Witness for C3 at the d1 stage configuration (256 -> 512, stride 2). -/
theorem residualBlock_shortcut_projection_witness :
    ResidualBlock.shortcut 256 [128, 128, 512] 2
      = some (Layer.conv2d 256 512 1 2 1 false) :=
  (residualBlock_shortcut_projection 256 128 128 512 2).2 (by decide)

/-- Claim C4: unit 0 omits the pre-activation bn+relu and uses the block
stride in its SamePadder and 3x3 convolution; every unit with positive index
starts with the pre-activation bn+relu and uses stride 1 there; otherwise
every unit is 1x1 reduce convolution, bn+relu, padded 3x3 convolution,
bn+relu, 1x1 expand convolution with nothing after it. -/
theorem residualBlock_unit_structure (i c0 c1 c2 stride idx : Nat) :
    ResidualBlock.unitLayers i [1, 3, 1] [c0, c1, c2] stride 0
      = [Layer.conv2d i c0 1 1 1 false,
         Layer.batchNorm2d c0, Layer.relu,
         Layer.samePadLayer 3 stride,
         Layer.conv2d c0 c1 3 stride 1 false,
         Layer.batchNorm2d c1, Layer.relu,
         Layer.conv2d c1 c2 1 1 1 false] ∧
    (0 < idx →
      ResidualBlock.unitLayers i [1, 3, 1] [c0, c1, c2] stride idx
        = [Layer.batchNorm2d i, Layer.relu,
           Layer.conv2d i c0 1 1 1 false,
           Layer.batchNorm2d c0, Layer.relu,
           Layer.samePadLayer 3 1,
           Layer.conv2d c0 c1 3 1 1 false,
           Layer.batchNorm2d c1, Layer.relu,
           Layer.conv2d c1 c2 1 1 1 false]) := by
  constructor
  · simp [ResidualBlock.unitLayers]
  · intro h
    have h0 : idx ≠ 0 := by omega
    simp [ResidualBlock.unitLayers, h0]

/-- Witness for C4 at unit index 1 of the d0 stage configuration. -/
theorem residualBlock_unit_structure_witness :
    ResidualBlock.unitLayers 256 [1, 3, 1] [64, 64, 256] 2 1
      = [Layer.batchNorm2d 256, Layer.relu,
         Layer.conv2d 256 64 1 1 1 false,
         Layer.batchNorm2d 64, Layer.relu,
         Layer.samePadLayer 3 1,
         Layer.conv2d 64 64 3 1 1 false,
         Layer.batchNorm2d 64, Layer.relu,
         Layer.conv2d 64 256 1 1 1 false] :=
  (residualBlock_unit_structure 256 64 64 256 2 1).2 (by decide)

/-- Claim C5: with unit channels [c0, c1] the running input channel count of
a DenseBlock grows by the last unit channel width c1 at every unit, so after
n units it is in_ch + n * c1, and the closing bn+relu is built at exactly
that width. -/
theorem denseBlock_channel_growth (in_ch c0 c1 n : Nat) :
    DenseBlock.unitInCh in_ch [c0, c1] n = in_ch + n * c1 ∧
    (∀ i, DenseBlock.unitInCh in_ch [c0, c1] (i + 1)
        = DenseBlock.unitInCh in_ch [c0, c1] i + c1) ∧
    DenseBlock.blk_bna in_ch [c0, c1] n
      = [Layer.batchNorm2d (in_ch + n * c1), Layer.relu] := by
  have key : ∀ m : Nat, DenseBlock.unitInCh in_ch [c0, c1] m = in_ch + m * c1 := by
    intro m
    induction m with
    | zero => simp [DenseBlock.unitInCh]
    | succ m ih =>
        simp [DenseBlock.unitInCh, ih]
        ring
  refine ⟨key n, fun i => ?_, ?_⟩
  · simp [DenseBlock.unitInCh, List.getD]
  · simp [DenseBlock.blk_bna, key n]

/-- Helper: folding the dense step equals the spec recurrence. -/
theorem DenseBlock.foldl_eq_spec (units : List (Tensor4 → Tensor4)) :
    ∀ (bna : Tensor4 → Tensor4) (x : Tensor4),
      bna (units.foldl DenseBlock.step x) = specDenseForward units bna x := by
  induction units with
  | nil => intro bna x; rfl
  | cons u rest ih =>
      intro bna x
      exact ih bna (DenseBlock.step x u)

/-- Claim C6: DenseBlock's forward pass runs each unit on the running feature
map, center-crops the running map to the new output's spatial size,
concatenates along the channel axis, and finally applies the closing
normalise-and-activate; concatenation adds channel widths and keeps the
cropped spatial extents, and cropping takes exactly the target's extents. -/
theorem denseBlock_forward_concat_crop (units : List (Tensor4 → Tensor4))
    (bna : Tensor4 → Tensor4) (x : Tensor4) :
    DenseBlock.forward units bna x = specDenseForward units bna x ∧
    (∀ a b : Tensor4, (Tensor4.cat a b).chan = a.chan + b.chan
        ∧ (Tensor4.cat a b).height = a.height ∧ (Tensor4.cat a b).width = a.width) ∧
    (∀ a t : Tensor4, (crop_to_shape a t).height = t.height
        ∧ (crop_to_shape a t).width = t.width ∧ (crop_to_shape a t).chan = a.chan) :=
  ⟨DenseBlock.foldl_eq_spec units bna x,
   fun a b => ⟨rfl, rfl, rfl⟩, fun a t => ⟨rfl, rfl, rfl⟩⟩

/-- Claim C7: UpSample2x maps a (B, C, H, W) tensor to a (B, C, 2H, 2W)
tensor in which every 2x2 output block replicates the corresponding input
pixel exactly; the contraction is against the constant all-ones matrix. -/
theorem upSample2x_replicates (x : Tensor4) (b c h w i j : Nat)
    (hi : i < 2) (hj : j < 2) :
    (UpSample2x.forward x).batch = x.batch ∧
    (UpSample2x.forward x).chan = x.chan ∧
    (UpSample2x.forward x).height = x.height * 2 ∧
    (UpSample2x.forward x).width = x.width * 2 ∧
    (UpSample2x.forward x).data b c (2 * h + i) (2 * w + j) = x.data b c h w := by
  refine ⟨rfl, rfl, rfl, rfl, ?_⟩
  have h1 : (2 * h + i) / 2 = h := by omega
  have h2 : (2 * w + j) / 2 = w := by omega
  show UpSample2x.ret x b c ((2 * h + i) / 2) ((2 * w + j) / 2)
      ((2 * h + i) % 2) ((2 * w + j) % 2) = x.data b c h w
  rw [h1, h2]
  simp [UpSample2x.ret, UpSample2x.xu, UpSample2x.mat, UpSample2x.unpool_mat]

/-- Witness for C7 on a concrete 1x1x2x2 tensor at output position (3, 1). -/
theorem upSample2x_replicates_witness :
    (UpSample2x.forward upSampleProbe).data 0 0 (2 * 1 + 1) (2 * 0 + 1)
      = upSampleProbe.data 0 0 1 0 :=
  (upSample2x_replicates upSampleProbe 0 0 1 0 1 1 (by decide) (by decide)).2.2.2.2

/-- Claim C8: the encoder forward pass is exactly division by 255 followed by
the stem, the four residual stages, and the bottleneck convolution, returning
only the final tensor; the stem is a 7x7 valid convolution without bias to 64
channels with bn+relu, the stages carry the configurations d0 (64 to
[64, 64, 256], 3 units, stride 1), d1 (256 to [128, 128, 512], 4 units,
stride 2), d2 (512 to [256, 256, 1024], 6 units, stride 2), d3 (1024 to
[512, 512, 2048], 3 units, stride 2), and the bottleneck is a 1x1 convolution
without bias from 2048 to 1024 channels. -/
theorem hoVerNet_encoder_pipeline (m : HoVerNet.Modules) (imgs : Tensor4)
    (input_ch b c h w : Nat) :
    HoVerNet.forward m imgs
      = m.conv_bot (m.d3 (m.d2 (m.d1 (m.d0 (m.conv0 (Tensor4.divScalar imgs 255)))))) ∧
    (Tensor4.divScalar imgs 255).data b c h w = imgs.data b c h w / 255 ∧
    (Tensor4.divScalar imgs 255).batch = imgs.batch ∧
    (Tensor4.divScalar imgs 255).chan = imgs.chan ∧
    (Tensor4.divScalar imgs 255).height = imgs.height ∧
    (Tensor4.divScalar imgs 255).width = imgs.width ∧
    HoVerNet.conv0 input_ch
      = [Layer.conv2d input_ch 64 7 1 1 false, Layer.batchNorm2d 64, Layer.relu] ∧
    HoVerNet.d0 = ResidualBlockSpec.mk 64 [1, 3, 1] [64, 64, 256] 3 1 ∧
    HoVerNet.d1 = ResidualBlockSpec.mk 256 [1, 3, 1] [128, 128, 512] 4 2 ∧
    HoVerNet.d2 = ResidualBlockSpec.mk 512 [1, 3, 1] [256, 256, 1024] 6 2 ∧
    HoVerNet.d3 = ResidualBlockSpec.mk 1024 [1, 3, 1] [512, 512, 2048] 3 2 ∧
    HoVerNet.conv_bot = Layer.conv2d 2048 1024 1 1 1 false :=
  ⟨rfl, rfl, rfl, rfl, rfl, rfl, rfl, rfl, rfl, rfl, rfl, rfl⟩

/-- Claim C9: constructing a ResidualBlock or a DenseBlock with kernel-size
and channel lists of different lengths fails at construction with the
'Unbalance Unit Info' configuration fault, and construction succeeds exactly
when the lengths agree. -/
theorem block_init_length_guard (in_ch : Nat) (uk uc : List Nat) (n s : Nat) :
    (uk.length ≠ uc.length →
        ResidualBlock.init in_ch uk uc n s
            = Except.error ConfigFault.unbalanceUnitInfo ∧
        DenseBlock.init in_ch uk uc n s
            = Except.error ConfigFault.unbalanceUnitInfo) ∧
    ((∃ v, ResidualBlock.init in_ch uk uc n s = Except.ok v)
        ↔ uk.length = uc.length) ∧
    ((∃ v, DenseBlock.init in_ch uk uc n s = Except.ok v)
        ↔ uk.length = uc.length) := by
  by_cases h1 : uk.length = uc.length <;>
    simp [ResidualBlock.init, DenseBlock.init, h1]

/-- Witness for C9 with lists of lengths 2 and 1. -/
theorem block_init_length_guard_witness :
    ResidualBlock.init 4 [1, 3] [8] 1 1
      = Except.error ConfigFault.unbalanceUnitInfo :=
  ((block_init_length_guard 4 [1, 3] [8] 1 1).1 (by decide)).1

/-- Claim C10: ResidualBlock.forward returns the same output whatever the
freeze argument is; the flag is accepted but never read on the inference
path. -/
theorem residualBlock_forward_freeze_noninterference
    (units : List (Tensor4 → Tensor4)) (shortcut : Option (Tensor4 → Tensor4))
    (bna : Tensor4 → Tensor4) (x : Tensor4) (f1 f2 : Bool) :
    ResidualBlock.forward units shortcut bna x f1
      = ResidualBlock.forward units shortcut bna x f2 := rfl
